import Mathlib

/-!
# Verification of the linear-copilot webhook pipeline

A shallow embedding, in Lean 4, of the deterministic core of the
linear-copilot repository: webhook authentication (`src/utils/webhook.ts`),
event classification, the two HTTP entry points (`src/api/webhook.ts` for
Next.js and the Cloudflare `serve` handler), and the priority lookup
matrices of the agent tools (`agent-tools`, `src/utils/tools.ts`).

JavaScript externals (the HMAC from `node:crypto`, `JSON.parse`,
`Date.now()`, the Linear client, the agent/task runner) are modelled as
explicit parameters; a thrown JavaScript exception is an `Except.error`
carrying the error message.
-/

namespace LinearCopilot

/-! ## Data model (`src/types/index.ts`)

`Option` marks fields that may be absent at runtime (`undefined` in the
source, guarded there with optional chaining). An absent or empty string
`id`/`title` is modelled as `""`, which matches JavaScript truthiness for
the `payload.data?.id` style guards, since both `undefined` and `""` are
falsy. -/

structure LabelNode where
  name : String
deriving DecidableEq, Repr

structure LabelsObj where
  nodes : Option (List LabelNode)
deriving DecidableEq, Repr

structure UpdatedFrom where
  labelIds : Option (List String)
deriving DecidableEq, Repr

structure IssueData where
  id : String
  title : String
  description : String
  labels : Option LabelsObj
deriving DecidableEq, Repr

structure LinearWebhookPayload where
  action : String
  type : String
  data : Option IssueData
  updatedFrom : Option UpdatedFrom
deriving DecidableEq, Repr

structure WebhookHeaders where
  linearDelivery : String
  linearEvent : String
  linearSignature : String
deriving DecidableEq, Repr

/-! ## Authenticator (`src/utils/webhook.ts`) -/

/-- `ALLOWED_IPS` (webhook.ts lines 14-19): the four literal addresses. -/
def ALLOWED_IPS : List String :=
  ["35.231.147.226", "35.243.134.228", "34.140.253.14", "34.38.87.206"]

/-- `verifyWebhookIp` (webhook.ts line 41): membership in the allowlist. -/
def verifyWebhookIp (ip : String) : Bool :=
  ALLOWED_IPS.contains ip

/-- `verifyWebhookSignature` (webhook.ts line 21): the header must equal the
HMAC-SHA256 hex digest of the raw body keyed by the secret. The digest
computation lives in `node:crypto`, outside this repository, so it enters as
the function parameter `hmacHex : secret → payload → digest`. -/
def verifyWebhookSignature (hmacHex : String → String → String)
    (payload signature secret : String) : Bool :=
  signature == hmacHex secret payload

/-- `verifyWebhookTimestamp` (webhook.ts line 32): the webhook timestamp is
at most one minute from the current time, `Math.abs(now - ts) <= 60 * 1000`.
`Date.now()` enters as the parameter `currentTime`; `none` for the timestamp
models a body whose `webhookTimestamp` field is absent, in which case the
JavaScript comparison is `NaN <= 60000`, which is false. -/
def verifyWebhookTimestamp (currentTime : Int) (webhookTime : Option Int) : Bool :=
  match webhookTime with
  | some t => decide ((currentTime - t).natAbs ≤ 60 * 1000)
  | none => false

/-- The message of the error thrown by `validateWebhookRequest` when the
webhook secret is the empty string (webhook.ts line 74). -/
def secretNotConfiguredMsg : String := "LINEAR_WEBHOOK_SECRET is not configured"

/-- Models the `SyntaxError` thrown by `JSON.parse` on a body that is not
valid JSON (webhook.ts line 92). -/
def jsonSyntaxErrorMsg : String := "SyntaxError: unexpected token in JSON"

/-- `validateWebhookRequest` (webhook.ts lines 67-99). `parseTimestamp`
models `JSON.parse` followed by reading `webhookTimestamp`: `none` when the
body is not valid JSON (`JSON.parse` throws), `some none` when it parses but
carries no numeric timestamp, `some (some t)` otherwise. The `Except` layer
carries the thrown errors: the configuration error for an empty secret, and
the `JSON.parse` failure, which in the source happens only after the IP and
signature checks both passed. -/
def validateWebhookRequest (hmacHex : String → String → String)
    (parseTimestamp : String → Option (Option Int)) (currentTime : Int)
    (headers : WebhookHeaders) (body ip webhookSecret : String) :
    Except String Bool :=
  if webhookSecret = "" then
    .error secretNotConfiguredMsg
  else if !verifyWebhookIp ip then
    .ok false
  else if !verifyWebhookSignature hmacHex body headers.linearSignature webhookSecret then
    .ok false
  else
    match parseTimestamp body with
    | none => .error jsonSyntaxErrorMsg
    | some ts => .ok (verifyWebhookTimestamp currentTime ts)

/-! ## EventClassifier (`src/utils/webhook.ts` lines 45-65) -/

/-- `isIssueCreationEvent` (webhook.ts line 45). -/
def isIssueCreationEvent (payload : LinearWebhookPayload) : Bool :=
  payload.type == "Issue" && payload.action == "create" &&
    (match payload.data with
     | some d => d.id != "" && d.title != ""
     | none => false)

/-- `payload.updatedFrom?.labelIds !== undefined` (webhook.ts line 62). -/
def updatedLabelIdsPresent (payload : LinearWebhookPayload) : Bool :=
  match payload.updatedFrom with
  | some u => u.labelIds.isSome
  | none => false

/-- `payload.data?.labels?.nodes !== undefined` (webhook.ts line 63). -/
def labelsNodesPresent (payload : LinearWebhookPayload) : Bool :=
  match payload.data with
  | some d =>
    match d.labels with
    | some l => l.nodes.isSome
    | none => false
  | none => false

/-- `isIssueLabelUpdateEvent` (webhook.ts line 54). -/
def isIssueLabelUpdateEvent (payload : LinearWebhookPayload) : Bool :=
  payload.type == "Issue" && payload.action == "update" &&
    (match payload.data with
     | some d => d.id != ""
     | none => false) &&
    (updatedLabelIdsPresent payload || labelsNodesPresent payload)

/-! ## PriorityEngine

The four priority matrices of the source, as association lists mirroring
the JavaScript `Record<string, Record<string, number>>` literals. -/

/-- `priorityMatrix` of the Bug agent's `updatePriority` tool
(agent-tools lines 225-230): rows keyed by impact, columns by urgency. -/
def bugPriorityMatrix : List (String × List (String × Nat)) :=
  [("critical", [("critical", 1), ("high", 1), ("medium", 2), ("low", 2)]),
   ("high",     [("critical", 1), ("high", 2), ("medium", 2), ("low", 3)]),
   ("medium",   [("critical", 2), ("high", 2), ("medium", 3), ("low", 3)]),
   ("low",      [("critical", 2), ("high", 3), ("medium", 3), ("low", 4)])]

/-- `priorityMatrix` of the Feature agent's `updatePriority` tool
(agent-tools lines 470-475): rows keyed by businessValue, columns by
implementationEffort. -/
def featurePriorityMatrix : List (String × List (String × Nat)) :=
  [("critical", [("small", 1), ("medium", 1), ("large", 2), ("xlarge", 2)]),
   ("high",     [("small", 1), ("medium", 2), ("large", 2), ("xlarge", 3)]),
   ("medium",   [("small", 2), ("medium", 2), ("large", 3), ("xlarge", 3)]),
   ("low",      [("small", 3), ("medium", 3), ("large", 4), ("xlarge", 4)])]

/-- `priorityMatrix` of the Improvement agent's `updatePriority` tool
(agent-tools lines 708-713): rows keyed by technicalImpact, columns by
implementationRisk. -/
def improvementPriorityMatrix : List (String × List (String × Nat)) :=
  [("critical", [("low", 1), ("medium", 1), ("high", 2)]),
   ("high",     [("low", 1), ("medium", 2), ("high", 3)]),
   ("medium",   [("low", 2), ("medium", 3), ("high", 3)]),
   ("low",      [("low", 3), ("medium", 3), ("high", 4)])]

/-- `priorityMatrix` of `createPriorityAssessmentTool`
(src/utils/tools.ts lines 378-383): rows keyed by impact, columns by
urgency. Distinct from `bugPriorityMatrix`. -/
def assessmentPriorityMatrix : List (String × List (String × Nat)) :=
  [("critical", [("critical", 1), ("high", 2), ("medium", 2), ("low", 3)]),
   ("high",     [("critical", 2), ("high", 2), ("medium", 3), ("low", 3)]),
   ("medium",   [("critical", 2), ("high", 3), ("medium", 3), ("low", 4)]),
   ("low",      [("critical", 3), ("high", 3), ("medium", 4), ("low", 4)])]

/-- `priorityMatrix[impact]?.[urgency] ?? 3` of the Bug agent's
`updatePriority` tool (agent-tools line 232): optional chaining and the
default 3 when either key is missing. -/
def bugUpdatePriority (impact urgency : String) : Nat :=
  ((bugPriorityMatrix.lookup impact).bind fun row => row.lookup urgency).getD 3

/-- `priorityMatrix[businessValue]?.[implementationEffort] ?? 3` of the
Feature agent's `updatePriority` tool (agent-tools line 478). -/
def featureUpdatePriority (businessValue implementationEffort : String) : Nat :=
  ((featurePriorityMatrix.lookup businessValue).bind fun row =>
    row.lookup implementationEffort).getD 3

/-- `priorityMatrix[technicalImpact]?.[implementationRisk] ?? 3` of the
Improvement agent's `updatePriority` tool (agent-tools line 716). -/
def improvementUpdatePriority (technicalImpact implementationRisk : String) : Nat :=
  ((improvementPriorityMatrix.lookup technicalImpact).bind fun row =>
    row.lookup implementationRisk).getD 3

/-- Models reading `priorityMatrix[impact][urgency]` on an impact key that is
not in the record: in JavaScript this is a `TypeError` thrown by indexing
`undefined`. -/
def assessmentTypeErrorMsg : String :=
  "TypeError: cannot read properties of undefined"

/-- `priorityMatrix[impact][urgency]` of `createPriorityAssessmentTool`
(tools.ts line 385): no optional chaining and no `?? 3` default. An impact
outside the table throws (`.error`); an impact in the table with an urgency
outside it evaluates to `undefined` (`.ok none`). -/
def priorityAssessment (impact urgency : String) : Except String (Option Nat) :=
  match assessmentPriorityMatrix.lookup impact with
  | none => .error assessmentTypeErrorMsg
  | some row => .ok (row.lookup urgency)

/-! ### The declared input domains

The `z.enum` domains of the tool schemas, and, for the statement of the
spec's §4.4 matrices, those matrices transcribed from the spec's words. -/

inductive Sev where
  | critical | high | medium | low
deriving DecidableEq, Repr, Fintype

inductive Effort where
  | small | medium | large | xlarge
deriving DecidableEq, Repr, Fintype

inductive Risk where
  | low | medium | high
deriving DecidableEq, Repr, Fintype

def sevStr : Sev → String
  | .critical => "critical"
  | .high => "high"
  | .medium => "medium"
  | .low => "low"

def effortStr : Effort → String
  | .small => "small"
  | .medium => "medium"
  | .large => "large"
  | .xlarge => "xlarge"

def riskStr : Risk → String
  | .low => "low"
  | .medium => "medium"
  | .high => "high"

/-- The ordinal rank of a severity level, highest first; used to relate the
manager's assessment matrix to the Bug matrix. -/
def sevRank : Sev → Nat
  | .critical => 0
  | .high => 1
  | .medium => 2
  | .low => 3

/-- The Bug matrix of spec §4.4, transcribed from the spec's words for
comparison with the source's `bugPriorityMatrix`. -/
def specBugMatrix : Sev → Sev → Nat
  | .critical, .critical => 1 | .critical, .high => 1
  | .critical, .medium => 2 | .critical, .low => 2
  | .high, .critical => 1 | .high, .high => 2
  | .high, .medium => 2 | .high, .low => 3
  | .medium, .critical => 2 | .medium, .high => 2
  | .medium, .medium => 3 | .medium, .low => 3
  | .low, .critical => 2 | .low, .high => 3
  | .low, .medium => 3 | .low, .low => 4

/-- The Feature matrix of spec §4.4, transcribed from the spec's words. -/
def specFeatureMatrix : Sev → Effort → Nat
  | .critical, .small => 1 | .critical, .medium => 1
  | .critical, .large => 2 | .critical, .xlarge => 2
  | .high, .small => 1 | .high, .medium => 2
  | .high, .large => 2 | .high, .xlarge => 3
  | .medium, .small => 2 | .medium, .medium => 2
  | .medium, .large => 3 | .medium, .xlarge => 3
  | .low, .small => 3 | .low, .medium => 3
  | .low, .large => 4 | .low, .xlarge => 4

/-- The Improvement matrix of spec §4.4, transcribed from the spec's words. -/
def specImprovementMatrix : Sev → Risk → Nat
  | .critical, .low => 1 | .critical, .medium => 1 | .critical, .high => 2
  | .high, .low => 1 | .high, .medium => 2 | .high, .high => 3
  | .medium, .low => 2 | .medium, .medium => 3 | .medium, .high => 3
  | .low, .low => 3 | .low, .medium => 3 | .low, .high => 4

/-! ## LabelRouter

The entry points extract the first label name and lower-case it
(src/api/webhook.ts lines 163-164; the Cloudflare handler lines 96-97). -/

/-- JavaScript `String.prototype.toLowerCase`, character by character; it
agrees with `String.toLower` on the ASCII label and level names this
pipeline compares. -/
def jsToLowerCase (s : String) : String :=
  ⟨s.data.map Char.toLower⟩

/-- `(labels?.nodes?.[0]?.name || "").toLowerCase()` from the two entry
points: the lower-cased name of the first label, or `""` when absent. -/
def extractIssueLabel (labels : Option LabelsObj) : String :=
  jsToLowerCase ((((labels.bind LabelsObj.nodes).bind List.head?).map LabelNode.name).getD "")

/-- The closed category set of spec §2/§4.3. -/
inductive Category where
  | bug | feature | improvement
deriving DecidableEq, Repr

/-- `RoutingDecision` of spec §3. -/
inductive RoutingDecision where
  | routedTo (category : Category)
  | rejected (reason : String)
deriving DecidableEq, Repr

/-- Modelled from the spec: the LabelRouter comparison of §4.3. The source
delegates the comparison itself to the manager agent through prompt text
(src/api/webhook.ts lines 176-178), so no executable comparison exists under
src/; this definition follows the spec's words — normalize by lower-casing,
compare case-insensitively against the three category names, and reject any
other label with `Rejected("invalid label")`. -/
def route (rawLabel : String) : RoutingDecision :=
  if jsToLowerCase rawLabel = "bug" then .routedTo .bug
  else if jsToLowerCase rawLabel = "feature" then .routedTo .feature
  else if jsToLowerCase rawLabel = "improvement" then .routedTo .improvement
  else .rejected "invalid label"

/-! ## OrchestrationPipeline: the two entry points

Both handlers are modelled as pure functions of the request data and of the
external collaborators: `payloadOf` models `JSON.parse` of the raw body as a
webhook payload (total here, because every path that reaches it has already
parsed the body successfully inside `validateWebhookRequest`), `runTask`
models `task.run()` (`.error` = the dispatch threw), and `notify` models
`createCommentTool(...).invoke(...)` for the best-effort error comment. -/

/-- An HTTP response of the Next.js handler, reduced to its status code and
its identifying message (`message` field of a 200 body, `details` of an
error body). -/
structure HttpResponse where
  status : Nat
  message : String
deriving DecidableEq, Repr

/-- The message of the unreachable payload re-check throw
(src/api/webhook.ts line 67, Cloudflare handler line 82). -/
def missingIssueIdMsg : String := "Invalid payload: missing issue ID"

/-- Models the `TypeError` thrown by destructuring `payload.data` when
`data` is absent (src/api/webhook.ts line 65). -/
def destructureErrorMsg : String :=
  "TypeError: cannot destructure properties of undefined"

/-- The Next.js `POST` handler (src/api/webhook.ts lines 22-247): validate,
classify, re-check the issue id, dispatch; a thrown error is caught by the
outer `catch` and becomes a 500 whose `details` is the error's message. A
dispatch failure first attempts the best-effort notification comment; the
notification's own outcome is discarded either way (its failure is only
logged, lines 225-227) and the original dispatch error is rethrown. -/
def handleWebhook (hmacHex : String → String → String)
    (parseTimestamp : String → Option (Option Int))
    (payloadOf : String → LinearWebhookPayload) (currentTime : Int)
    (headers : WebhookHeaders) (body ip webhookSecret : String)
    (runTask : Except String String) (notify : Except String Unit) :
    HttpResponse :=
  match validateWebhookRequest hmacHex parseTimestamp currentTime headers body ip webhookSecret with
  | .error e => ⟨500, e⟩
  | .ok false => ⟨401, "Invalid webhook request"⟩
  | .ok true =>
    let payload := payloadOf body
    if !(isIssueCreationEvent payload) && !(isIssueLabelUpdateEvent payload) then
      ⟨200, "Event ignored"⟩
    else
      match payload.data with
      | none => ⟨500, destructureErrorMsg⟩
      | some d =>
        if d.id = "" then ⟨500, missingIssueIdMsg⟩
        else
          match runTask with
          | .ok _ => ⟨200, "Issue processed successfully"⟩
          | .error taskError =>
            match notify with
            | .ok _ => ⟨500, taskError⟩
            | .error _ => ⟨500, taskError⟩

/-- The Next.js handler with the dead issue-id re-check removed (line 66-68
of src/api/webhook.ts deleted, everything else identical); used to state
that the re-check branch is unreachable. -/
def handleWebhookNoRecheck (hmacHex : String → String → String)
    (parseTimestamp : String → Option (Option Int))
    (payloadOf : String → LinearWebhookPayload) (currentTime : Int)
    (headers : WebhookHeaders) (body ip webhookSecret : String)
    (runTask : Except String String) (notify : Except String Unit) :
    HttpResponse :=
  match validateWebhookRequest hmacHex parseTimestamp currentTime headers body ip webhookSecret with
  | .error e => ⟨500, e⟩
  | .ok false => ⟨401, "Invalid webhook request"⟩
  | .ok true =>
    let payload := payloadOf body
    if !(isIssueCreationEvent payload) && !(isIssueLabelUpdateEvent payload) then
      ⟨200, "Event ignored"⟩
    else
      match payload.data with
      | none => ⟨500, destructureErrorMsg⟩
      | some _ =>
        match runTask with
        | .ok _ => ⟨200, "Issue processed successfully"⟩
        | .error taskError =>
          match notify with
          | .ok _ => ⟨500, taskError⟩
          | .error _ => ⟨500, taskError⟩

/-- A terminal outcome of the Cloudflare workflow handler. -/
inductive CfOutcome where
  | ignored
  | processed (text : String)
deriving DecidableEq, Repr

/-- The Cloudflare `serve` handler (the unnamed workflow source, lines
38-224): validation failure and every thrown error surface as a workflow
error (`.error`). Unlike the Next.js handler, its dispatch `catch` block
awaits the notification comment with no inner `try`/`catch` (lines 208-216),
so a failing notification replaces the original task error. -/
def serveCloudflare (hmacHex : String → String → String)
    (parseTimestamp : String → Option (Option Int))
    (payloadOf : String → LinearWebhookPayload) (currentTime : Int)
    (headers : WebhookHeaders) (body ip webhookSecret : String)
    (runTask : Except String String) (notify : Except String Unit) :
    Except String CfOutcome :=
  match validateWebhookRequest hmacHex parseTimestamp currentTime headers body ip webhookSecret with
  | .error e => .error e
  | .ok false => .error "Invalid webhook request"
  | .ok true =>
    let payload := payloadOf body
    if !(isIssueCreationEvent payload || isIssueLabelUpdateEvent payload) then
      .ok .ignored
    else
      match payload.data with
      | none => .error destructureErrorMsg
      | some d =>
        if d.id = "" then .error missingIssueIdMsg
        else
          match runTask with
          | .ok text => .ok (.processed text)
          | .error taskError =>
            match notify with
            | .ok _ => .error taskError
            | .error commentError => .error commentError

/-- The Cloudflare handler with the dead issue-id re-check removed (lines
81-83 of the workflow source deleted, everything else identical). -/
def serveCloudflareNoRecheck (hmacHex : String → String → String)
    (parseTimestamp : String → Option (Option Int))
    (payloadOf : String → LinearWebhookPayload) (currentTime : Int)
    (headers : WebhookHeaders) (body ip webhookSecret : String)
    (runTask : Except String String) (notify : Except String Unit) :
    Except String CfOutcome :=
  match validateWebhookRequest hmacHex parseTimestamp currentTime headers body ip webhookSecret with
  | .error e => .error e
  | .ok false => .error "Invalid webhook request"
  | .ok true =>
    let payload := payloadOf body
    if !(isIssueCreationEvent payload || isIssueLabelUpdateEvent payload) then
      .ok .ignored
    else
      match payload.data with
      | none => .error destructureErrorMsg
      | some _ =>
        match runTask with
        | .ok text => .ok (.processed text)
        | .error taskError =>
          match notify with
          | .ok _ => .error taskError
          | .error commentError => .error commentError

/-! ## Shared lemmas -/

/-- An accepted payload carries an issue data object with a non-empty id:
both classifier predicates conjoin a truthiness check on `payload.data?.id`. -/
lemma accepted_data_id (p : LinearWebhookPayload) :
    (isIssueCreationEvent p || isIssueLabelUpdateEvent p) = true →
    ∃ d, p.data = some d ∧ d.id ≠ "" := by
  intro h
  cases hd : p.data with
  | none => simp [isIssueCreationEvent, isIssueLabelUpdateEvent, hd] at h
  | some d =>
    refine ⟨d, rfl, fun hid => ?_⟩
    simp [isIssueCreationEvent, isIssueLabelUpdateEvent, hd, hid] at h

/-! ## Claims -/

/-- C1: over the declared domains, the three agents' `updatePriority` tools
compute exactly the literal matrices of spec §4.4 — Bug over impact ×
urgency, Feature over businessValue × implementationEffort, Improvement over
technicalImpact × implementationRisk — and every result lies in
`{1, 2, 3, 4}`. -/
theorem updatePriority_matrices_exact :
    (∀ i u : Sev, bugUpdatePriority (sevStr i) (sevStr u) = specBugMatrix i u) ∧
    (∀ (v : Sev) (e : Effort),
      featureUpdatePriority (sevStr v) (effortStr e) = specFeatureMatrix v e) ∧
    (∀ (t : Sev) (r : Risk),
      improvementUpdatePriority (sevStr t) (riskStr r) = specImprovementMatrix t r) ∧
    (∀ i u : Sev, 1 ≤ bugUpdatePriority (sevStr i) (sevStr u) ∧
      bugUpdatePriority (sevStr i) (sevStr u) ≤ 4) ∧
    (∀ (v : Sev) (e : Effort), 1 ≤ featureUpdatePriority (sevStr v) (effortStr e) ∧
      featureUpdatePriority (sevStr v) (effortStr e) ≤ 4) ∧
    (∀ (t : Sev) (r : Risk), 1 ≤ improvementUpdatePriority (sevStr t) (riskStr r) ∧
      improvementUpdatePriority (sevStr t) (riskStr r) ≤ 4) := by
  decide

/-- C3 counterexample: at impact = critical, urgency = high, the manager's
`createPriorityAssessmentTool` computes priority 2 while the Bug agent's
`updatePriority` tool computes 1, so the two toolsets do not share a single
decision matrix for the impact × urgency category. -/
theorem assessment_differs_from_bug_matrix :
    priorityAssessment "critical" "high" = .ok (some 2) ∧
    bugUpdatePriority "critical" "high" = 1 := by
  exact ⟨rfl, rfl⟩

/-- C3 amended: the manager's assessment tool and the Bug agent's tool use
two distinct fixed matrices over the same impact × urgency domain. On every
pair the assessment priority equals the Bug priority plus
`(rank impact + rank urgency) % 2`, so the two agree exactly on the pairs
whose severity ranks share parity — in particular whenever
impact = urgency — and differ by one elsewhere. -/
theorem assessment_vs_bug_matrix :
    (∀ i u : Sev, priorityAssessment (sevStr i) (sevStr u) =
      .ok (some (bugUpdatePriority (sevStr i) (sevStr u) + (sevRank i + sevRank u) % 2))) ∧
    (∀ i : Sev, priorityAssessment (sevStr i) (sevStr i) =
      .ok (some (bugUpdatePriority (sevStr i) (sevStr i)))) := by
  constructor
  · intro i u
    cases i <;> cases u <;> rfl
  · intro i
    cases i <;> rfl

/-- C6 counterexample: the manager's `createPriorityAssessmentTool` has no
defensive fallback — an impact key outside its table throws a `TypeError`
instead of yielding 3, and an urgency key outside the table yields
`undefined` rather than 3 — while the Bug agent's tool does default to 3 on
the same out-of-domain input. -/
theorem priorityAssessment_not_defensive :
    priorityAssessment "unknown" "low" = .error assessmentTypeErrorMsg ∧
    priorityAssessment "critical" "unknown" = .ok none ∧
    bugUpdatePriority "unknown" "low" = 3 := by
  exact ⟨rfl, rfl, rfl⟩

/-- C6 amended: the three specialized agents' `updatePriority` tools map any
input pair outside their lookup table to the default priority 3 and, being
total functions into `Nat`, never throw; the manager's
`createPriorityAssessmentTool` has no such default: an impact outside its
table throws, and an in-table impact with an out-of-table urgency produces
no priority at all. -/
theorem updatePriority_default_fallback :
    (∀ impact urgency : String,
      ((bugPriorityMatrix.lookup impact).bind fun row => row.lookup urgency) = none →
        bugUpdatePriority impact urgency = 3) ∧
    (∀ value effort : String,
      ((featurePriorityMatrix.lookup value).bind fun row => row.lookup effort) = none →
        featureUpdatePriority value effort = 3) ∧
    (∀ impact risk : String,
      ((improvementPriorityMatrix.lookup impact).bind fun row => row.lookup risk) = none →
        improvementUpdatePriority impact risk = 3) ∧
    (∀ impact urgency : String, assessmentPriorityMatrix.lookup impact = none →
        priorityAssessment impact urgency = .error assessmentTypeErrorMsg) ∧
    (∀ (impact urgency : String) (row : List (String × Nat)),
      assessmentPriorityMatrix.lookup impact = some row → row.lookup urgency = none →
        priorityAssessment impact urgency = .ok none) := by
  refine ⟨?_, ?_, ?_, ?_, ?_⟩
  · intro impact urgency h
    simp [bugUpdatePriority, h]
  · intro value effort h
    simp [featureUpdatePriority, h]
  · intro impact risk h
    simp [improvementUpdatePriority, h]
  · intro impact urgency h
    simp [priorityAssessment, h]
  · intro impact urgency row h1 h2
    simp [priorityAssessment, h1, h2]

/-- C5: `verifyWebhookTimestamp` accepts exactly the timestamps within
60000 ms of the current time, the boundary included: a difference of
exactly 60000 passes and of 60001 fails. -/
theorem verifyWebhookTimestamp_window (currentTime ts : Int) :
    (verifyWebhookTimestamp currentTime (some ts) = true ↔
      currentTime - 60000 ≤ ts ∧ ts ≤ currentTime + 60000) ∧
    ((currentTime - ts).natAbs = 60000 →
      verifyWebhookTimestamp currentTime (some ts) = true) ∧
    ((currentTime - ts).natAbs = 60001 →
      verifyWebhookTimestamp currentTime (some ts) = false) := by
  refine ⟨?_, ?_, ?_⟩
  · simp only [verifyWebhookTimestamp, decide_eq_true_eq]
    omega
  · intro h
    simp only [verifyWebhookTimestamp, decide_eq_true_eq]
    omega
  · intro h
    simp only [verifyWebhookTimestamp, decide_eq_false_iff_not]
    omega

/-- C2: `validateWebhookRequest` throws the configuration error whenever the
secret is empty, whatever the request looks like (so the check precedes
every per-request check); with a non-empty secret it returns `true` exactly
when the source IP is allowlisted, the `linear-signature` header equals the
HMAC digest of the raw body keyed by the secret, and the body parses to a
`webhookTimestamp` within 60000 ms of the current time — the conjunction of
the three independent checks. -/
theorem validateWebhookRequest_checks (hmacHex : String → String → String)
    (parseTimestamp : String → Option (Option Int)) (currentTime : Int)
    (headers : WebhookHeaders) (body ip webhookSecret : String) :
    (webhookSecret = "" →
      validateWebhookRequest hmacHex parseTimestamp currentTime headers body ip webhookSecret
        = .error secretNotConfiguredMsg) ∧
    (webhookSecret ≠ "" →
      (validateWebhookRequest hmacHex parseTimestamp currentTime headers body ip webhookSecret
          = .ok true ↔
        verifyWebhookIp ip = true ∧
        headers.linearSignature = hmacHex webhookSecret body ∧
        ∃ t : Int, parseTimestamp body = some (some t) ∧
          (currentTime - t).natAbs ≤ 60000)) := by
  constructor
  · intro h
    simp [validateWebhookRequest, h]
  · intro h
    unfold validateWebhookRequest
    rw [if_neg h]
    cases hip : verifyWebhookIp ip with
    | false => simp [hip]
    | true =>
      rw [verifyWebhookSignature]
      cases hsig : headers.linearSignature == hmacHex webhookSecret body with
      | false =>
        simp only [Bool.not_false, if_true]
        simp only [beq_eq_false_iff_ne, ne_eq] at hsig
        simp [hsig]
      | true =>
        simp only [Bool.not_true, Bool.false_eq_true, if_false]
        rw [beq_iff_eq] at hsig
        cases hp : parseTimestamp body with
        | none => simp [hsig]
        | some tsOpt =>
          cases tsOpt with
          | none => simp [verifyWebhookTimestamp, hsig]
          | some t =>
            simp [verifyWebhookTimestamp, hsig]

/-- C7: a payload is actionable exactly when it is an issue-creation event
(type "Issue", action "create", non-empty id and title) or an issue
label-update event (type "Issue", action "update", non-empty id, and either
the `updatedFrom.labelIds` field or the `data.labels.nodes` collection
present); every payload satisfying neither predicate makes the handler
answer 200 "Event ignored" rather than an error status. -/
theorem classifier_iff_and_ignored :
    (∀ p : LinearWebhookPayload,
      (isIssueCreationEvent p || isIssueLabelUpdateEvent p) = true ↔
        (p.type = "Issue" ∧ p.action = "create" ∧
          ∃ d, p.data = some d ∧ d.id ≠ "" ∧ d.title ≠ "") ∨
        (p.type = "Issue" ∧ p.action = "update" ∧
          (∃ d, p.data = some d ∧ d.id ≠ "") ∧
          ((∃ u ids, p.updatedFrom = some u ∧ u.labelIds = some ids) ∨
           (∃ d l ns, p.data = some d ∧ d.labels = some l ∧ l.nodes = some ns)))) ∧
    (∀ (hmacHex : String → String → String)
      (parseTimestamp : String → Option (Option Int))
      (payloadOf : String → LinearWebhookPayload) (currentTime : Int)
      (headers : WebhookHeaders) (body ip webhookSecret : String)
      (runTask : Except String String) (notify : Except String Unit),
      validateWebhookRequest hmacHex parseTimestamp currentTime headers body ip webhookSecret
        = .ok true →
      isIssueCreationEvent (payloadOf body) = false →
      isIssueLabelUpdateEvent (payloadOf body) = false →
      handleWebhook hmacHex parseTimestamp payloadOf currentTime headers body ip webhookSecret
        runTask notify = ⟨200, "Event ignored"⟩) := by
  constructor
  · intro p
    obtain ⟨action, type, data, updatedFrom⟩ := p
    simp only [isIssueCreationEvent, isIssueLabelUpdateEvent, updatedLabelIdsPresent,
      labelsNodesPresent, Bool.or_eq_true, Bool.and_eq_true, beq_iff_eq]
    cases data with
    | none => simp
    | some d =>
      cases hu : updatedFrom with
      | none =>
        cases hl : d.labels with
        | none => simp [bne_iff_ne, hl]; tauto
        | some l =>
          cases hn : l.nodes with
          | none => simp [bne_iff_ne, hl, hn]; tauto
          | some ns => simp [bne_iff_ne, hl, hn]; tauto
      | some u =>
        cases hids : u.labelIds with
        | none =>
          cases hl : d.labels with
          | none => simp [bne_iff_ne, hids, hl]; tauto
          | some l =>
            cases hn : l.nodes with
            | none => simp [bne_iff_ne, hids, hl, hn]; tauto
            | some ns => simp [bne_iff_ne, hids, hl, hn]; tauto
        | some ids =>
          simp [bne_iff_ne, hids]; tauto
  · intro hmacHex parseTimestamp payloadOf currentTime headers body ip webhookSecret
      runTask notify hv hc hu
    unfold handleWebhook
    rw [hv]
    simp [hc, hu]

/-- C8 (LabelRouter, comparison modelled from spec §4.3): routing depends
only on the lower-cased label, so any two labels with the same
normalization — such as "Bug", "BUG" and "bug" — route identically; and
every label whose normalization is none of bug, feature, improvement yields
the decision `Rejected("invalid label")`, a returned value rather than a
thrown exception or a failed request. -/
theorem label_routing_case_insensitive :
    (∀ s t : String, jsToLowerCase s = jsToLowerCase t → route s = route t) ∧
    (route "Bug" = .routedTo .bug ∧ route "BUG" = .routedTo .bug ∧
     route "bug" = .routedTo .bug ∧ route "Feature" = .routedTo .feature ∧
     route "IMPROVEMENT" = .routedTo .improvement) ∧
    (∀ s : String, jsToLowerCase s ≠ "bug" → jsToLowerCase s ≠ "feature" →
      jsToLowerCase s ≠ "improvement" → route s = .rejected "invalid label") := by
  refine ⟨?_, ?_, ?_⟩
  · intro s t h
    simp only [route, h]
  · refine ⟨?_, ?_, ?_, ?_, ?_⟩ <;> rfl
  · intro s h1 h2 h3
    simp [route, h1, h2, h3]

/-- C9: every payload either classifier accepts has a data object with a
non-empty id, so the issue-id re-check after acceptance never fires: each
entry point computes the same response as its variant with the re-check
branch deleted. -/
theorem accepted_payload_has_id_recheck_dead :
    (∀ p : LinearWebhookPayload,
      (isIssueCreationEvent p || isIssueLabelUpdateEvent p) = true →
      ∃ d, p.data = some d ∧ d.id ≠ "") ∧
    (∀ (hmacHex : String → String → String)
      (parseTimestamp : String → Option (Option Int))
      (payloadOf : String → LinearWebhookPayload) (currentTime : Int)
      (headers : WebhookHeaders) (body ip webhookSecret : String)
      (runTask : Except String String) (notify : Except String Unit),
      handleWebhook hmacHex parseTimestamp payloadOf currentTime headers body ip webhookSecret
          runTask notify =
        handleWebhookNoRecheck hmacHex parseTimestamp payloadOf currentTime headers body ip
          webhookSecret runTask notify) ∧
    (∀ (hmacHex : String → String → String)
      (parseTimestamp : String → Option (Option Int))
      (payloadOf : String → LinearWebhookPayload) (currentTime : Int)
      (headers : WebhookHeaders) (body ip webhookSecret : String)
      (runTask : Except String String) (notify : Except String Unit),
      serveCloudflare hmacHex parseTimestamp payloadOf currentTime headers body ip webhookSecret
          runTask notify =
        serveCloudflareNoRecheck hmacHex parseTimestamp payloadOf currentTime headers body ip
          webhookSecret runTask notify) := by
  refine ⟨accepted_data_id, ?_, ?_⟩
  · intro hmacHex parseTimestamp payloadOf currentTime headers body ip webhookSecret
      runTask notify
    unfold handleWebhook handleWebhookNoRecheck
    cases validateWebhookRequest hmacHex parseTimestamp currentTime headers body ip
        webhookSecret with
    | error e => rfl
    | ok b =>
      cases b with
      | false => rfl
      | true =>
        cases hc : !isIssueCreationEvent (payloadOf body) &&
            !isIssueLabelUpdateEvent (payloadOf body) with
        | true => simp [hc]
        | false =>
          have hacc : (isIssueCreationEvent (payloadOf body) ||
              isIssueLabelUpdateEvent (payloadOf body)) = true := by
            cases h1 : isIssueCreationEvent (payloadOf body) with
            | true => simp [h1]
            | false =>
              cases h2 : isIssueLabelUpdateEvent (payloadOf body) with
              | true => simp [h1, h2]
              | false => rw [h1, h2] at hc; simp at hc
          obtain ⟨d, hd, hid⟩ := accepted_data_id _ hacc
          simp only [hc, Bool.false_eq_true, if_false, hd]
          rw [if_neg hid]
  · intro hmacHex parseTimestamp payloadOf currentTime headers body ip webhookSecret
      runTask notify
    unfold serveCloudflare serveCloudflareNoRecheck
    cases validateWebhookRequest hmacHex parseTimestamp currentTime headers body ip
        webhookSecret with
    | error e => rfl
    | ok b =>
      cases b with
      | false => rfl
      | true =>
        cases hc : isIssueCreationEvent (payloadOf body) ||
            isIssueLabelUpdateEvent (payloadOf body) with
        | false => simp [hc]
        | true =>
          obtain ⟨d, hd, hid⟩ := accepted_data_id _ hc
          simp only [hc, Bool.not_true, Bool.false_eq_true, if_false, hd]
          rw [if_neg hid]

/-- A concrete issue-creation payload: type "Issue", action "create",
non-empty id and title. -/
def samplePayload : LinearWebhookPayload :=
  ⟨"create", "Issue", some ⟨"ISS-1", "Crash on save", "The editor crashes", none⟩, none⟩

/-- C4, evaluated at the failing input: in the Cloudflare entry point the
dispatch `catch` awaits the notification comment with no guard, so when
`task.run()` throws "task failed" and the comment call itself throws
"comment failed", the error reported to the caller is the notification
error, not the original dispatch error. -/
theorem cloudflare_notification_masks_dispatch_error :
    serveCloudflare (fun _ _ => "sig") (fun _ => some (some 0)) (fun _ => samplePayload) 0
      ⟨"", "", "sig"⟩ "{}" "35.231.147.226" "secret"
      (.error "task failed") (.error "comment failed") = .error "comment failed" := by
  rfl

/-- C10: a request from an allowlisted IP whose signature header matches the
HMAC of a body that is not valid JSON makes `validateWebhookRequest` throw
(the `JSON.parse` reached only after the IP and signature checks both
passed) instead of returning false, so the Next.js handler answers with the
500 error response, not the 401 authentication failure. -/
theorem invalid_json_throws_500 (hmacHex : String → String → String)
    (parseTimestamp : String → Option (Option Int))
    (payloadOf : String → LinearWebhookPayload) (currentTime : Int)
    (deliv event body webhookSecret : String)
    (runTask : Except String String) (notify : Except String Unit)
    (hsecret : webhookSecret ≠ "") (hjson : parseTimestamp body = none) :
    validateWebhookRequest hmacHex parseTimestamp currentTime
        ⟨deliv, event, hmacHex webhookSecret body⟩ body "35.231.147.226" webhookSecret
      = .error jsonSyntaxErrorMsg ∧
    handleWebhook hmacHex parseTimestamp payloadOf currentTime
        ⟨deliv, event, hmacHex webhookSecret body⟩ body "35.231.147.226" webhookSecret
        runTask notify
      = ⟨500, jsonSyntaxErrorMsg⟩ := by
  have hip : verifyWebhookIp "35.231.147.226" = true := by decide
  have hval : validateWebhookRequest hmacHex parseTimestamp currentTime
      ⟨deliv, event, hmacHex webhookSecret body⟩ body "35.231.147.226" webhookSecret
      = .error jsonSyntaxErrorMsg := by
    unfold validateWebhookRequest
    rw [if_neg hsecret]
    simp [hip, verifyWebhookSignature, hjson]
  refine ⟨hval, ?_⟩
  unfold handleWebhook
  rw [hval]

/-- C10 witness: the theorem at a concrete request — empty headers apart
from a matching signature, body "not json" that no parse accepts, secret
"secret". -/
theorem invalid_json_throws_500_witness :
    validateWebhookRequest (fun _ _ => "mac") (fun _ => none) 0
        ⟨"", "", "mac"⟩ "not json" "35.231.147.226" "secret"
      = .error jsonSyntaxErrorMsg ∧
    handleWebhook (fun _ _ => "mac") (fun _ => none) (fun _ => samplePayload) 0
        ⟨"", "", "mac"⟩ "not json" "35.231.147.226" "secret"
        (.ok "done") (.ok ())
      = ⟨500, jsonSyntaxErrorMsg⟩ :=
  invalid_json_throws_500 (fun _ _ => "mac") (fun _ => none) (fun _ => samplePayload) 0
    "" "" "not json" "secret" (.ok "done") (.ok ()) (by decide) rfl

end LinearCopilot
